/-
Verification of the Indian-Legal-KAG scoring core.

Shallow embedding of the three core components of the repository
(analysis_frameworks/scoring_engine.py, document_classifier.py,
framework_engine.py) and proofs of the specification claims about them.

Modelling conventions:
* Python floats are modelled as rationals (ℚ); every arithmetic operation of
  the source is mirrored exactly, so the theorems describe the ideal
  real-number semantics of the code.
* Python dicts that are built in insertion order and iterated in that order
  are modelled as association lists (List (String × _)); dict overwrite keeps
  the original key position, as in CPython, via pyDictSet.
* The one external library boundary, Python's regex engine, is abstracted as
  a boolean oracle `search : String → String → Bool` standing for
  `re.search(pattern, text, re.IGNORECASE | re.MULTILINE) is not None`
  (the bonus scan omits MULTILINE, which is irrelevant: no pattern in the
  tables contains an anchor).  All general theorems are proved for every
  oracle; concrete evaluations instantiate the oracle with a finite table
  that is checked by hand against the regexes on the given text.
* Wall-clock timestamp fields (datetime.now()) are omitted: they are the
  only impure outputs and no claim mentions them.
-/
import Mathlib

set_option maxRecDepth 40000

namespace LegalKAG

/-! ## Definitions: shallow embedding of the three components -/

/-- The `indian_legal_indicators` bundle consumed by the scoring methods
(fields read via .get with falsy defaults in the source). -/
structure IndianLegalIndicators where
  constitutional_relevance : Bool
  article_mentions : List Nat
  privacy_terms : List String
  dpdpa_relevance : Bool
deriving Repr, DecidableEq

/-- The parts of the `document_analysis` dict that the scoring engine reads:
`indian_legal_indicators`, the `text` fields of `enhanced_chunks`, and
`document_classification.confidence` (default 0.5 when absent). -/
structure DocumentAnalysis where
  indicators : IndianLegalIndicators
  enhanced_chunks : List String
  classification_confidence : ℚ
deriving Repr, DecidableEq

/-- A document_analysis built from an empty dict. -/
def emptyAnalysis : DocumentAnalysis :=
  { indicators :=
      { constitutional_relevance := false
        article_mentions := []
        privacy_terms := []
        dpdpa_relevance := false }
    enhanced_chunks := []
    classification_confidence := 0.5 }

/-- Result of scoring one criterion (score / issues / recommendations). -/
structure ScoreResult where
  score : ℚ
  issues : List String
  recommendations : List String
deriving Repr, DecidableEq

/-- An entry of `scoring_criteria[cat]["criteria"]`: its weight and its
scoring_method string (the unused `articles` / dimension lists are omitted:
no scoring method reads them). -/
structure CriterionConfig where
  weight : ℚ
  scoring_method : String
deriving Repr, DecidableEq

/-- An entry of `scoring_criteria`. -/
structure CategoryConfig where
  weight : ℚ
  max_score : ℚ
  criteria : List (String × CriterionConfig)
deriving Repr, DecidableEq

/-- The scoring_criteria table (returned by the engine's initializer). -/
def scoring_criteria : List (String × CategoryConfig) :=
  [ ("constitutional_compliance",
      { weight := 0.4
        max_score := 100
        criteria :=
          [ ("fundamental_rights_adherence",
              { weight := 0.3, scoring_method := "rights_protection_analysis" })
          , ("constitutional_validity",
              { weight := 0.3, scoring_method := "validity_framework_analysis" })
          , ("procedural_compliance",
              { weight := 0.4, scoring_method := "due_process_evaluation" }) ] })
  , ("privacy_compliance",
      { weight := 0.3
        max_score := 100
        criteria :=
          [ ("article_21_compliance",
              { weight := 0.4, scoring_method := "puttaswamy_framework_assessment" })
          , ("consent_mechanism",
              { weight := 0.3, scoring_method := "consent_validity_analysis" })
          , ("transparency",
              { weight := 0.3, scoring_method := "disclosure_adequacy_assessment" }) ] })
  , ("dpdpa_compliance",
      { weight := 0.3
        max_score := 100
        criteria :=
          [ ("lawful_basis",
              { weight := 0.35, scoring_method := "lawful_processing_assessment" })
          , ("data_fiduciary_obligations",
              { weight := 0.35, scoring_method := "fiduciary_compliance_analysis" })
          , ("data_principal_rights",
              { weight := 0.3, scoring_method := "principal_rights_protection" }) ] }) ]

/-- The overall_risk threshold table. -/
def overall_risk_table : List (String × ℚ) :=
  [("very_low", 87), ("low", 72), ("medium", 57), ("high", 37), ("very_high", 0)]

/-- The risk_thresholds table (returned by the engine's initializer);
inner lists keep the source's insertion order, highest threshold first. -/
def risk_thresholds : List (String × List (String × ℚ)) :=
  [ ("constitutional_risk",
      [("very_low", 90), ("low", 75), ("medium", 60), ("high", 40), ("very_high", 0)])
  , ("privacy_risk",
      [("very_low", 85), ("low", 70), ("medium", 55), ("high", 35), ("very_high", 0)])
  , ("compliance_risk",
      [("very_low", 88), ("low", 73), ("medium", 58), ("high", 38), ("very_high", 0)])
  , ("overall_risk", overall_risk_table) ]

/-- Python's binary `min` on two rationals (first argument on ties). -/
def pyMin (a b : ℚ) : ℚ := if a ≤ b then a else b

/-- Python's binary `max` on two rationals (first argument on ties). -/
def pyMax (a b : ℚ) : ℚ := if b ≤ a then a else b

/-- Whether the first list is an initial segment of the second. -/
def leadsList : List Char → List Char → Bool
  | [], _ => true
  | _ :: _, [] => false
  | c :: cs, d :: ds => c = d && leadsList cs ds

/-- Whether the first list occurs as a contiguous segment of the second. -/
def occursIn (needle : List Char) : List Char → Bool
  | [] => needle.isEmpty
  | d :: ds => leadsList needle (d :: ds) || occursIn needle ds

/-- Python's substring test `needle in hay`. -/
def pyIn (needle hay : String) : Bool :=
  occursIn needle.data hay.data

/-- `_score_fundamental_rights_protection`. -/
def score_fundamental_rights_protection (a : DocumentAnalysis) : ScoreResult :=
  let ind := a.indicators
  let base : ℚ := 70
  let s1 := if ind.constitutional_relevance then base + 15 else base - 10
  let issues1 : List String :=
    if ind.constitutional_relevance then []
    else ["Constitutional relevance not clearly established"]
  let s2 :=
    if ind.article_mentions.isEmpty then s1
    else s1 + (ind.article_mentions.length : ℚ) * 3
  let issues2 :=
    if ind.article_mentions.isEmpty then
      issues1 ++ ["No constitutional articles specifically referenced"]
    else issues1
  let recs : List String :=
    if ind.article_mentions.isEmpty then
      ["Reference relevant constitutional provisions"]
    else []
  { score := pyMin 100 (pyMax 0 s2), issues := issues2, recommendations := recs }

/-- `_score_privacy_rights_compliance`. -/
def score_privacy_rights_compliance (a : DocumentAnalysis) : ScoreResult :=
  let ind := a.indicators
  let base : ℚ := 60
  let s1 :=
    if ind.privacy_terms.isEmpty then base - 15
    else base + (ind.privacy_terms.length : ℚ) * 8
  let issues1 : List String :=
    if ind.privacy_terms.isEmpty then
      ["Privacy protection measures not adequately addressed"]
    else []
  let recs1 : List String :=
    if ind.privacy_terms.isEmpty then
      ["Implement comprehensive privacy protection measures"]
    else []
  let s2 := if ind.dpdpa_relevance then s1 + 15 else s1
  let issues2 :=
    if ind.dpdpa_relevance then issues1
    else issues1 ++ ["DPDPA compliance requirements not addressed"]
  let recs2 :=
    if ind.dpdpa_relevance then recs1
    else recs1 ++ ["Implement DPDPA 2023 compliance measures"]
  { score := pyMin 100 (pyMax 0 s2), issues := issues2, recommendations := recs2 }

/-- `_score_dpdpa_lawful_basis`. -/
def score_dpdpa_lawful_basis (a : DocumentAnalysis) : ScoreResult :=
  let base : ℚ := 65
  let consent_mentions :=
    a.enhanced_chunks.countP (fun c => pyIn ("consent") c.toLower)
  let lawful_basis_mentions :=
    a.enhanced_chunks.countP
      (fun c => pyIn ("lawful basis") c.toLower || pyIn ("legitimate interest") c.toLower)
  let s1 := if consent_mentions > 0 then base + 15 else base
  let issues1 : List String :=
    if consent_mentions > 0 then [] else ["No clear consent mechanism identified"]
  let recs1 : List String :=
    if consent_mentions > 0 then []
    else ["Implement clear consent collection procedures"]
  let s2 := if lawful_basis_mentions > 0 then s1 + 10 else s1
  let issues2 :=
    if lawful_basis_mentions > 0 then issues1
    else issues1 ++ ["Lawful basis for processing not clearly established"]
  let recs2 :=
    if lawful_basis_mentions > 0 then recs1
    else recs1 ++ ["Establish and document lawful basis for data processing"]
  { score := pyMin 100 (pyMax 0 s2), issues := issues2, recommendations := recs2 }

/-- `_default_scoring_method`. -/
def default_scoring_method (_a : DocumentAnalysis) : ScoreResult :=
  { score := 65
    issues := []
    recommendations := ["Manual review recommended for detailed assessment"] }

/-- Result of `_score_criterion`. -/
structure CriterionResult where
  score : ℚ
  issues : List String
  recommendations : List String
  criterion : String
  method : String
deriving Repr, DecidableEq

/-- `_score_criterion` (the try/except around the dispatch cannot fire in
the model: the scoring methods are total). -/
def score_criterion (criterion_name : String) (cfg : CriterionConfig)
    (a : DocumentAnalysis) : CriterionResult :=
  let m := cfg.scoring_method
  let r :=
    if m = "rights_protection_analysis" then score_fundamental_rights_protection a
    else if m = "puttaswamy_framework_assessment" then score_privacy_rights_compliance a
    else if m = "lawful_processing_assessment" then score_dpdpa_lawful_basis a
    else default_scoring_method a
  { score := r.score
    issues := r.issues
    recommendations := r.recommendations
    criterion := criterion_name
    method := m }

/-- The framework → category fixed mapping inside `_map_framework_to_category`. -/
def framework_category_mapping : List (String × String) :=
  [ ("constitutional_analysis", "constitutional_compliance")
  , ("privacy_rights_analysis", "privacy_compliance")
  , ("dpdpa_compliance", "dpdpa_compliance")
  , ("administrative_law", "constitutional_compliance")
  , ("general_legal_analysis", "constitutional_compliance") ]

/-- `_map_framework_to_category`: `mapping.get(framework, "constitutional_compliance")`. -/
def map_framework_to_category (framework : String) : String :=
  ((framework_category_mapping.lookup framework).getD ("constitutional_compliance"))

/-- Result of `_score_framework_category`. -/
structure CategoryScore where
  score : ℚ
  criterion_scores : List (String × CriterionResult)
  issues : List String
  recommendations : List String
  category : String
  framework : String
deriving Repr, DecidableEq

/-- `_score_framework_category` (the per-criterion loop is expressed with
map / sum / join, which accumulate in the same left-to-right order as the
source's loop). -/
def score_framework_category (framework : String) (a : DocumentAnalysis) :
    Option CategoryScore :=
  let category_name := map_framework_to_category framework
  match scoring_criteria.lookup category_name with
  | none => none
  | some cfg =>
    let crs := cfg.criteria.map (fun cr => (cr.1, score_criterion cr.1 cr.2 a))
    let category_score :=
      (cfg.criteria.map (fun cr => (score_criterion cr.1 cr.2 a).score * cr.2.weight)).sum
    some
      { score := pyMin 100 (pyMax 0 category_score)
        criterion_scores := crs
        issues := (crs.map (fun c => c.2.issues)).flatten
        recommendations := (crs.map (fun c => c.2.recommendations)).flatten
        category := category_name
        framework := framework }

/-- `_get_category_weight`: `scoring_criteria.get(category, {}).get("weight", 0.33)`. -/
def get_category_weight (category : String) : ℚ :=
  (((scoring_criteria.lookup category).map (fun c => c.weight)).getD 0.33)

/-- `_determine_compliance_level`. -/
def determine_compliance_level (overall_score : ℚ) : String :=
  if overall_score ≥ 90 then "excellent"
  else if overall_score ≥ 80 then "good"
  else if overall_score ≥ 70 then "satisfactory"
  else if overall_score ≥ 60 then "needs_improvement"
  else "poor"

/-- The risk-type key derived in `_assess_comprehensive_risk`:
`f-string of category.split(sep)[0] + "_risk"`. -/
def risk_key_for (category : String) : String :=
  ((category.splitOn ("_")).headD ("")) ++ "_risk"

/-- `_get_risk_level`: first level of the (ordered) threshold table whose
threshold the score meets or exceeds; unknown risk types fall back to the
overall_risk table. -/
def get_risk_level (risk_type : String) (score : ℚ) : String :=
  let thresholds := (risk_thresholds.lookup risk_type).getD overall_risk_table
  match thresholds.find? (fun lt => decide (score ≥ lt.2)) with
  | some lt => lt.1
  | none => "very_high"

/-- One entry of `risk_assessment["category_risks"]`. -/
structure RiskEntry where
  risk_level : String
  score : ℚ
  issues : List String
deriving Repr, DecidableEq

/-- One entry of `risk_assessment["critical_risks"]`. -/
structure CriticalRisk where
  category : String
  risk_level : String
  score : ℚ
deriving Repr, DecidableEq

/-- `_assess_comprehensive_risk`'s return value (`risk_factors` is always
left empty by the source). -/
structure RiskAssessment where
  overall_risk_level : String
  category_risks : List (String × RiskEntry)
  critical_risks : List CriticalRisk
  risk_factors : List String
deriving Repr, DecidableEq

/-- `_assess_comprehensive_risk` (the source's single loop is split into a
map and a filterMap over the same items, preserving order). -/
def assess_comprehensive_risk (category_scores : List (String × CategoryScore))
    (overall_score : ℚ) : RiskAssessment :=
  { overall_risk_level := get_risk_level ("overall_risk") overall_score
    category_risks :=
      category_scores.map (fun p =>
        (p.1,
          { risk_level := get_risk_level (risk_key_for p.1) p.2.score
            score := p.2.score
            issues := p.2.issues }))
    critical_risks :=
      category_scores.filterMap (fun p =>
        let rl := get_risk_level (risk_key_for p.1) p.2.score
        if rl = "high" ∨ rl = "very_high" then
          some { category := p.1, risk_level := rl, score := p.2.score }
        else none)
    risk_factors := [] }

/-- Count of truthy values of the indicator bundle, as Python's
`len([v for v in content_indicators.values() if v])` over the four
modelled keys. -/
def truthy_indicator_count (ind : IndianLegalIndicators) : ℕ :=
  (if ind.constitutional_relevance then 1 else 0) +
  (if ind.article_mentions.isEmpty then 0 else 1) +
  (if ind.privacy_terms.isEmpty then 0 else 1) +
  (if ind.dpdpa_relevance then 1 else 0)

/-- `_calculate_scoring_confidence` (category_scores is received and ignored,
as in the source). -/
def calculate_scoring_confidence (a : DocumentAnalysis)
    (frameworks_applied : List String)
    (_category_scores : List (String × CategoryScore)) : ℚ :=
  let classification_confidence := a.classification_confidence
  let framework_coverage : ℚ := (frameworks_applied.length : ℚ) / 3
  let content_richness : ℚ := (truthy_indicator_count a.indicators : ℚ) / 8
  (classification_confidence + pyMin 1 framework_coverage + pyMin 1 content_richness) / 3

/-- CPython dict assignment `d[k] = v`: overwrites in place (keeping the
key's original insertion position) or appends a fresh key at the end. -/
def pyDictSet {β : Type} : List (String × β) → String → β → List (String × β)
  | [], k, v => [(k, v)]
  | (k0, v0) :: rest, k, v =>
      if k0 = k then (k0, v) :: rest else (k0, v0) :: pyDictSet rest k v

/-- Accumulator of the framework loop in `calculate_comprehensive_score`. -/
structure ScoreAcc where
  total_weighted_score : ℚ
  total_weight : ℚ
  category_scores : List (String × CategoryScore)
  critical_issues : List String
  recommendations : List String
deriving Repr, DecidableEq

/-- One iteration of the framework loop of `calculate_comprehensive_score`. -/
def score_step (a : DocumentAnalysis) (st : ScoreAcc) (framework : String) : ScoreAcc :=
  match score_framework_category framework a with
  | none => st
  | some cs =>
    let category_name := map_framework_to_category framework
    let category_weight := get_category_weight category_name
    { total_weighted_score := st.total_weighted_score + cs.score * category_weight
      total_weight := st.total_weight + category_weight
      category_scores := pyDictSet st.category_scores category_name cs
      critical_issues := st.critical_issues ++ cs.issues
      recommendations := st.recommendations ++ cs.recommendations }

/-- `calculate_comprehensive_score`'s returned record (scoring_breakdown is
never filled by the source and the timestamp is impure; both omitted). -/
structure ScoringResults where
  overall_score : ℚ
  category_scores : List (String × CategoryScore)
  risk_assessment : RiskAssessment
  compliance_level : String
  critical_issues : List String
  recommendations : List String
  confidence_level : ℚ
deriving Repr, DecidableEq

/-- `calculate_comprehensive_score`. -/
def calculate_comprehensive_score (a : DocumentAnalysis)
    (frameworks_applied : List String) : ScoringResults :=
  let acc := frameworks_applied.foldl (score_step a)
    { total_weighted_score := 0
      total_weight := 0
      category_scores := []
      critical_issues := []
      recommendations := [] }
  let overall := if acc.total_weight > 0 then acc.total_weighted_score / acc.total_weight else 0
  { overall_score := overall
    category_scores := acc.category_scores
    risk_assessment := assess_comprehensive_risk acc.category_scores overall
    compliance_level := determine_compliance_level overall
    critical_issues := acc.critical_issues
    recommendations := acc.recommendations
    confidence_level := calculate_scoring_confidence a frameworks_applied acc.category_scores }

/-- The fields of a framework_registry entry that the selection logic reads
(description / key_articles / analysis_methods etc. are reference data the
selector never consults). -/
structure FrameworkConfig where
  applicable_documents : List String
  priority : ℕ
deriving Repr, DecidableEq

/-- The framework_registry table, in source insertion order. -/
def framework_registry : List (String × FrameworkConfig) :=
  [ ("constitutional_analysis",
      { applicable_documents :=
          [ "government_notification", "constitutional_document", "supreme_court_judgment"
          , "constitutional_amendment", "recruitment_rules", "office_memorandum" ]
        priority := 1 })
  , ("privacy_rights_analysis",
      { applicable_documents :=
          [ "privacy_policy", "dpdpa_compliance_document", "data_processing_agreement"
          , "employment_contract", "service_agreement" ]
        priority := 2 })
  , ("dpdpa_compliance",
      { applicable_documents :=
          [ "privacy_policy", "dpdpa_compliance_document", "data_processing_agreement" ]
        priority := 2 })
  , ("contract_law_analysis",
      { applicable_documents :=
          [ "service_agreement", "employment_contract", "non_disclosure_agreement"
          , "partnership_agreement", "loan_agreement", "lease_agreement" ]
        priority := 3 })
  , ("administrative_law",
      { applicable_documents :=
          [ "government_notification", "office_memorandum", "recruitment_rules"
          , "policy_document", "compliance_manual" ]
        priority := 2 })
  , ("general_legal_analysis",
      { applicable_documents := ["general_legal_document", "unknown"]
        priority := 4 }) ]

/-- `application_rules["combination_rules"]`. -/
def combination_rules : List (String × List String) :=
  [ ("government_documents", ["constitutional_analysis", "administrative_law"])
  , ("privacy_documents", ["privacy_rights_analysis", "dpdpa_compliance", "constitutional_analysis"])
  , ("commercial_contracts", ["contract_law_analysis", "constitutional_analysis"])
  , ("employment_matters", ["labor_law_analysis", "contract_law_analysis", "constitutional_analysis"])
  , ("judicial_documents", ["case_law_analysis", "constitutional_analysis"]) ]

/-- `application_rules["minimum_frameworks"]`. -/
def minimum_frameworks : ℕ := 1

/-- `application_rules["maximum_frameworks"]`. -/
def maximum_frameworks : ℕ := 4

/-- The content_indicators dict as read by `_get_content_based_frameworks`
and `_generate_selection_reason` (each key via .get with a falsy default). -/
structure ContentIndicators where
  constitutional_relevance : Bool
  dpdpa_relevance : Bool
  privacy_terms : List String
  government_terms : List String
deriving Repr, DecidableEq

/-- An empty content_indicators dict (also the `None` default argument). -/
def emptyContentIndicators : ContentIndicators :=
  { constitutional_relevance := false
    dpdpa_relevance := false
    privacy_terms := []
    government_terms := [] }

/-- `_get_primary_frameworks`: every framework whose applicable_documents
contains the document type, in registry order. -/
def get_primary_frameworks (document_type : String) : List String :=
  framework_registry.filterMap (fun p =>
    if document_type ∈ p.2.applicable_documents then some p.1 else none)

/-- `_get_content_based_frameworks`. -/
def get_content_based_frameworks (ci : ContentIndicators) : List String :=
  (if ci.constitutional_relevance then ["constitutional_analysis"] else []) ++
  (if ci.dpdpa_relevance || !ci.privacy_terms.isEmpty then
    ["privacy_rights_analysis", "dpdpa_compliance"] else []) ++
  (if !ci.government_terms.isEmpty then ["administrative_law"] else [])

/-- The `for f in new: if f not in acc: acc.append(f)` idiom used by the
selector. -/
def append_new (acc new : List String) : List String :=
  new.foldl (fun acc f => if f ∈ acc then acc else acc ++ [f]) acc

/-- `_categorize_document_type`. -/
def categorize_document_type (document_type : String) : String :=
  if document_type ∈ ["government_notification", "office_memorandum", "recruitment_rules"] then
    "government_documents"
  else if document_type ∈ ["privacy_policy", "dpdpa_compliance_document"] then
    "privacy_documents"
  else if document_type ∈ ["service_agreement", "employment_contract"] then
    "commercial_contracts"
  else if document_type ∈ ["employment_contract"] then
    "employment_matters"
  else if document_type ∈ ["supreme_court_judgment", "high_court_judgment"] then
    "judicial_documents"
  else
    "general_documents"

/-- `_apply_combination_rules`. -/
def apply_combination_rules (document_type : String) (frameworks : List String) :
    List String :=
  let doc_category := categorize_document_type document_type
  let combination_rule := (combination_rules.lookup doc_category).getD []
  append_new frameworks combination_rule

/-- Framework priority: `framework_registry.get(f, {}).get("priority", 5)`. -/
def get_framework_priority (framework : String) : ℕ :=
  (((framework_registry.lookup framework).map (fun c => c.priority)).getD 5)

/-- Stable insertion of an element into a key-sorted list: the new element
goes after every element whose key is less than or equal to its own. -/
def insert_by_key {α : Type} (key : α → ℕ) (x : α) : List α → List α
  | [] => [x]
  | y :: ys => if key y ≤ key x then y :: insert_by_key key x ys else x :: y :: ys

/-- Stable sort by key (the semantics of CPython's `list.sort(key=...)`):
elements are inserted left to right, each after its equals. -/
def stable_sort_by_key {α : Type} (key : α → ℕ) (l : List α) : List α :=
  l.foldl (fun acc x => insert_by_key key x acc) []

/-- `_prioritize_and_limit_frameworks`. -/
def prioritize_and_limit_frameworks (frameworks : List String) : List String :=
  let sorted_frameworks := stable_sort_by_key get_framework_priority frameworks
  let ensured :=
    if sorted_frameworks.length < minimum_frameworks then
      (if "general_legal_analysis" ∉ sorted_frameworks then
        sorted_frameworks ++ ["general_legal_analysis"]
      else sorted_frameworks)
    else sorted_frameworks
  ensured.take maximum_frameworks

/-- `_generate_selection_reason`. -/
def generate_selection_reason (framework document_type : String) (confidence : ℚ)
    (ci : ContentIndicators) : String :=
  let cfg := (framework_registry.lookup framework).getD
    { applicable_documents := [], priority := 5 }
  let r1 : List String :=
    if document_type ∈ cfg.applicable_documents then
      ["Document type \x27" ++ document_type ++ "\x27 matches framework scope"]
    else []
  let r2 : List String :=
    if framework = "constitutional_analysis" && ci.constitutional_relevance then
      ["Constitutional content detected"]
    else if framework = "privacy_rights_analysis" && !ci.privacy_terms.isEmpty then
      ["Privacy-related content identified"]
    else if framework = "dpdpa_compliance" && ci.dpdpa_relevance then
      ["DPDPA compliance requirements identified"]
    else []
  let r3 : List String :=
    if confidence ≥ 0.7 then
      ["High classification confidence supports framework application"]
    else []
  let reasons := r1 ++ r2 ++ r3
  let reasons :=
    if reasons.isEmpty then
      ["Selected based on document analysis and legal framework requirements"]
    else reasons
  String.intercalate ("; ") reasons

/-- The intermediate list built by `select_frameworks` before
`_prioritize_and_limit_frameworks` (primary + content + default +
combination rules). -/
def combined_frameworks (document_type : String) (confidence : ℚ)
    (ci : ContentIndicators) : List String :=
  let selected := get_primary_frameworks document_type
  let selected := append_new selected (get_content_based_frameworks ci)
  let selected :=
    if confidence ≥ 0.5 ∧ "constitutional_analysis" ∉ selected then
      selected ++ ["constitutional_analysis"]
    else selected
  apply_combination_rules document_type selected

/-- `select_frameworks`'s returned record (timestamp omitted: impure). -/
structure FrameworkSelection where
  selected_frameworks : List String
  framework_count : ℕ
  selection_confidence : ℚ
  selection_reasons : List (String × String)
  document_type : String
deriving Repr, DecidableEq

/-- `select_frameworks` (a `None` content_indicators argument is modelled by
passing `emptyContentIndicators`). -/
def select_frameworks (document_type : String) (confidence : ℚ)
    (ci : ContentIndicators) : FrameworkSelection :=
  let final_frameworks :=
    prioritize_and_limit_frameworks (combined_frameworks document_type confidence ci)
  { selected_frameworks := final_frameworks
    framework_count := final_frameworks.length
    selection_confidence := confidence
    selection_reasons :=
      final_frameworks.map (fun f =>
        (f, generate_selection_reason f document_type confidence ci))
    document_type := document_type }

/-- One document_patterns entry (`structure` is renamed structure_terms:
`structure` is a Lean keyword). -/
structure DocCriteria where
  keywords : List String
  patterns : List String
  structure_terms : List String
  weight_keyword : ℚ
  weight_pattern : ℚ
  weight_structure : ℚ
deriving Repr, DecidableEq

/-- The document_patterns table, in source insertion order.  Regex pattern
strings are kept verbatim (with Lean escaping of the backslash). -/
def document_patterns : List (String × DocCriteria) :=
  [ ("government_notification",
      { keywords := ["government of india", "notification", "ministry", "gazette",
                     "office memorandum", "central government", "bharat sarkar"]
        patterns := ["No\\.\\s+[A-Z]-\\d+", "dated\\s+the\\s+\\d+",
                     "Government\\s+of\\s+India", "Ministry\\s+of", "Department\\s+of"]
        structure_terms := ["preamble", "notification", "signature", "seal"]
        weight_keyword := 0.4, weight_pattern := 0.3, weight_structure := 0.3 })
  , ("office_memorandum",
      { keywords := ["office memorandum", "om", "circular", "guidelines",
                     "instructions", "departmental"]
        patterns := ["OFFICE\\s+MEMORANDUM", "O\\.M\\.\\s+No", "Circular\\s+No", "Guidelines"]
        structure_terms := ["header", "subject", "body", "signature"]
        weight_keyword := 0.5, weight_pattern := 0.3, weight_structure := 0.2 })
  , ("recruitment_rules",
      { keywords := ["recruitment rules", "appointment", "selection", "eligibility",
                     "qualification", "cadre"]
        patterns := ["Recruitment\\s+Rules", "post\\s+of", "Group\\s+[AB]",
                     "Pay\\s+Matrix", "Level\\s+\\d+"]
        structure_terms := ["rules", "schedule", "qualifications"]
        weight_keyword := 0.4, weight_pattern := 0.4, weight_structure := 0.2 })
  , ("constitutional_document",
      { keywords := ["constitution", "article", "fundamental rights",
                     "directive principles", "part iii", "part iv"]
        patterns := ["Article\\s+\\d+", "Constitution\\s+of\\s+India",
                     "Part\\s+[IVX]+", "Schedule\\s+[IVX]+"]
        structure_terms := ["articles", "parts", "schedules"]
        weight_keyword := 0.3, weight_pattern := 0.5, weight_structure := 0.2 })
  , ("constitutional_amendment",
      { keywords := ["constitutional amendment", "amendment act",
                     "constitution amendment", "amending"]
        patterns := ["Constitution\\s+\\([^)]+\\s+Amendment\\)\\s+Act",
                     "Amendment\\s+Act\\s+\\d{4}", "Article\\s+368"]
        structure_terms := ["amendment", "explanation", "commencement"]
        weight_keyword := 0.4, weight_pattern := 0.4, weight_structure := 0.2 })
  , ("supreme_court_judgment",
      { keywords := ["supreme court", "bench", "justice", "appeal", "petition",
                     "writ", "suo moto"]
        patterns := ["Supreme\\s+Court\\s+of\\s+India", "(\\w+)\\s+v\\.?\\s+(\\w+)",
                     "AIR\\s+\\d{4}\\s+SC", "Justice\\s+[A-Z]"]
        structure_terms := ["case_title", "bench", "judgment", "orders"]
        weight_keyword := 0.3, weight_pattern := 0.5, weight_structure := 0.2 })
  , ("high_court_judgment",
      { keywords := ["high court", "division bench", "single bench",
                     "writ petition", "appeal"]
        patterns := ["High\\s+Court", "Division\\s+Bench", "W\\.P\\.\\s+No", "Criminal\\s+Appeal"]
        structure_terms := ["case_details", "facts", "judgment", "order"]
        weight_keyword := 0.3, weight_pattern := 0.4, weight_structure := 0.3 })
  , ("privacy_policy",
      { keywords := ["privacy policy", "data collection", "personal information",
                     "cookies", "data processing"]
        patterns := ["Privacy\\s+Policy", "Data\\s+Protection", "Personal\\s+Data", "Cookie\\s+Policy"]
        structure_terms := ["collection", "usage", "sharing", "rights"]
        weight_keyword := 0.4, weight_pattern := 0.3, weight_structure := 0.3 })
  , ("dpdpa_compliance_document",
      { keywords := ["dpdpa", "digital personal data protection act", "data fiduciary",
                     "data principal", "consent"]
        patterns := ["DPDPA\\s+2023", "Data\\s+Fiduciary", "Data\\s+Principal",
                     "Digital\\s+Personal\\s+Data"]
        structure_terms := ["compliance", "procedures", "rights", "obligations"]
        weight_keyword := 0.5, weight_pattern := 0.3, weight_structure := 0.2 })
  , ("service_agreement",
      { keywords := ["service agreement", "services", "contractor", "client", "deliverables"]
        patterns := ["Service\\s+Agreement", "Statement\\s+of\\s+Work",
                     "Deliverables", "Service\\s+Level"]
        structure_terms := ["scope", "deliverables", "payment", "termination"]
        weight_keyword := 0.4, weight_pattern := 0.3, weight_structure := 0.3 })
  , ("employment_contract",
      { keywords := ["employment", "employee", "employer", "salary", "designation",
                     "terms of employment"]
        patterns := ["Employment\\s+Agreement", "Terms\\s+of\\s+Employment",
                     "Job\\s+Description", "Compensation"]
        structure_terms := ["position", "duties", "compensation", "termination"]
        weight_keyword := 0.4, weight_pattern := 0.3, weight_structure := 0.3 })
  , ("general_legal_document",
      { keywords := ["legal", "law", "agreement", "contract", "terms"]
        patterns := ["Agreement", "Contract", "Terms", "Legal"]
        structure_terms := ["parties", "terms", "obligations"]
        weight_keyword := 0.3, weight_pattern := 0.3, weight_structure := 0.4 }) ]

/-- The indian_legal_indicators pattern groups, in source insertion order. -/
def indian_legal_indicators : List (String × List String) :=
  [ ("constitutional_markers",
      ["Article\\s+\\d+", "Constitution\\s+of\\s+India", "Fundamental\\s+Rights",
       "Directive\\s+Principles", "Supreme\\s+Court", "High\\s+Court"])
  , ("indian_statutes",
      ["Indian\\s+Penal\\s+Code", "Companies\\s+Act", "Contract\\s+Act",
       "DPDPA\\s+2023", "IT\\s+Act", "Consumer\\s+Protection\\s+Act"])
  , ("government_indicators",
      ["Government\\s+of\\s+India", "Ministry\\s+of", "Central\\s+Government",
       "State\\s+Government", "Gazette\\s+of\\s+India"])
  , ("legal_concepts",
      ["whereas", "hereby", "provided\\s+that", "notwithstanding",
       "subject\\s+to", "in\\s+exercise\\s+of"]) ]

/-- The confidence_thresholds table. -/
def confidence_thresholds : List (String × ℚ) :=
  [ ("government_notification", 0.7)
  , ("constitutional_document", 0.6)
  , ("supreme_court_judgment", 0.8)
  , ("privacy_policy", 0.6)
  , ("dpdpa_compliance_document", 0.8)
  , ("employment_contract", 0.5)
  , ("service_agreement", 0.5)
  , ("default", 0.4) ]

/-- CPython's whitespace class for str.strip / str.split. -/
def pyIsSpace (c : Char) : Bool :=
  c = ' ' || c = '\t' || c = '\n' || c = '\r' || c = '\x0b' || c = '\x0c'

/-- Python `text.strip()`. -/
def pyStrip (s : String) : String :=
  String.mk (((s.data.dropWhile pyIsSpace).reverse.dropWhile pyIsSpace).reverse)

/-- Python `text.split()` (whitespace runs as separators, no empty items). -/
def pyWords (s : String) : List String :=
  ((s.data.splitOnP pyIsSpace).filter (fun w => !w.isEmpty)).map (fun w => String.mk w)

/-- `_calculate_keyword_score`. -/
def calculate_keyword_score (text_lower : String) (keywords : List String) : ℚ :=
  if keywords.isEmpty then 0
  else (keywords.countP (fun k => pyIn k.toLower text_lower) : ℚ) / (keywords.length : ℚ)

/-- `_calculate_pattern_score`: `search` abstracts
`re.search(pattern, text, re.IGNORECASE | re.MULTILINE) is not None`
(the try/except re.error is dropped: the table patterns are all valid). -/
def calculate_pattern_score (search : String → String → Bool) (text : String)
    (patterns : List String) : ℚ :=
  if patterns.isEmpty then 0
  else (patterns.countP (fun p => search p text) : ℚ) / (patterns.length : ℚ)

/-- `_calculate_structure_score`. -/
def calculate_structure_score (text_lower : String)
    (structure_elements : List String) : ℚ :=
  if structure_elements.isEmpty then 0
  else (structure_elements.countP (fun e => pyIn e.toLower text_lower) : ℚ) /
    (structure_elements.length : ℚ)

/-- `_calculate_indian_legal_bonus`: +0.1 per indicator group with at least
one regex hit (the source breaks out of the inner loop on the first hit),
capped at 0.5. -/
def calculate_indian_legal_bonus (search : String → String → Bool)
    (text : String) : ℚ :=
  pyMin 0.5 ((indian_legal_indicators.countP (fun g => g.2.any (fun p => search p text)) : ℚ) * 0.1)

/-- CPython `max(d, key=d.get)` over an insertion-ordered dict: the first
key attaining the maximal value. -/
def pyMaxBySnd : List (String × ℚ) → String × ℚ
  | [] => ("", 0)
  | x :: xs => xs.foldl (fun b p => if p.2 > b.2 then p else b) x

/-- `confidence_thresholds.get(best_type, confidence_thresholds["default"])`. -/
def get_confidence_threshold (doc_type : String) : ℚ :=
  (confidence_thresholds.lookup doc_type).getD
    ((confidence_thresholds.lookup ("default")).getD 0)

/-- The per-type final score computed inside the classifier loop. -/
def type_final_score (search : String → String → Bool) (text : String)
    (cr : DocCriteria) : ℚ :=
  let text_lower := text.toLower
  let keyword_score := calculate_keyword_score text_lower cr.keywords
  let pattern_score := calculate_pattern_score search text cr.patterns
  let structure_score := calculate_structure_score text_lower cr.structure_terms
  let indian_bonus := calculate_indian_legal_bonus search text
  let final_score :=
    keyword_score * cr.weight_keyword + pattern_score * cr.weight_pattern +
    structure_score * cr.weight_structure + indian_bonus * 0.1
  let length_factor := pyMin 1 (((pyWords text).length : ℚ) / 100)
  pyMin 1 (final_score * length_factor)

/-- The per-type score map built by the classifier loop (`all_scores`). -/
def classification_scores_of (search : String → String → Bool) (text : String) :
    List (String × ℚ) :=
  document_patterns.map (fun p => (p.1, type_final_score search text p.2))

/-- `classify_with_confidence` (the per-type try/except cannot fire in the
model: all component scorers are total). -/
def classify_with_confidence (search : String → String → Bool) (text : String) :
    String × ℚ × List (String × ℚ) :=
  if text.isEmpty || (pyStrip text).length < 10 then ("unknown", 0, [])
  else
    let classification_scores := classification_scores_of search text
    if classification_scores.isEmpty then ("unknown", 0, [])
    else
      let best := pyMaxBySnd classification_scores
      let threshold := get_confidence_threshold best.1
      if best.2 < threshold then
        if best.2 > 0.2 then ("general_legal_document", best.2, classification_scores)
        else ("unknown", best.2, classification_scores)
      else (best.1, best.2, classification_scores)

/-- The clamped criterion-weighted score of a scoring category (the `score`
field produced by `_score_framework_category` for that category; the
scorers do not read the framework name, so the score depends only on the
category). -/
def category_score_of (category : String) (a : DocumentAnalysis) : ℚ :=
  match scoring_criteria.lookup category with
  | none => 0
  | some cfg =>
      pyMin 100 (pyMax 0
        ((cfg.criteria.map (fun cr => (score_criterion cr.1 cr.2 a).score * cr.2.weight)).sum))

/-- The score contributed by one framework in the aggregation loop. -/
def framework_cat_score (f : String) (a : DocumentAnalysis) : ℚ :=
  match score_framework_category f a with
  | some cs => cs.score
  | none => 0

/-- The weight contributed by one framework in the aggregation loop. -/
def framework_weight (f : String) : ℚ :=
  get_category_weight (map_framework_to_category f)

/-- The overall score as claim C1 states it: a weighted mean over the
DISTINCT engaged categories, each category's configured weight counted
exactly once in numerator and denominator. -/
def distinct_category_weighted_mean (a : DocumentAnalysis) (fs : List String) : ℚ :=
  let cats := (fs.map map_framework_to_category).dedup
  let den := (cats.map get_category_weight).sum
  if 0 < den then
    (cats.map (fun c => category_score_of c a * get_category_weight c)).sum / den
  else 0

/-- The general_legal_document entry of document_patterns, named so that
concrete witnesses can reference it. -/
def general_legal_criteria : DocCriteria :=
  { keywords := ["legal", "law", "agreement", "contract", "terms"]
    patterns := ["Agreement", "Contract", "Terms", "Legal"]
    structure_terms := ["parties", "terms", "obligations"]
    weight_keyword := 0.3
    weight_pattern := 0.3
    weight_structure := 0.4 }

/-- A concrete five-word input (34 characters, so it passes the length
guard). -/
def five_word_text : String := "legal law agreement contract terms"

/-- Oracle agreeing with Python's `re.search` (IGNORECASE) on
five_word_text: of all the table regexes, exactly the four
general_legal_document patterns — plain words — occur in that text
(checked by hand; no other pattern of document_patterns or
indian_legal_indicators matches it). -/
def five_word_search (p : String) (_t : String) : Bool :=
  p ∈ ["Agreement", "Contract", "Terms", "Legal"]

/-- A concrete eight-word input on which general_legal_document attains
keyword, pattern and structure scores of 1 plus a 0.1 bonus, making the
raw weighted sum 1.01 > 1. -/
def clamp_text : String := "legal law agreement contract terms parties obligations whereas"

/-- Oracle agreeing with Python's `re.search` (IGNORECASE) on clamp_text:
exactly the four general_legal_document patterns and the legal_concepts
indicator "whereas" occur in that text (checked by hand; in particular
there is no "act" in the text, so no statute pattern matches). -/
def clamp_search (p : String) (_t : String) : Bool :=
  p ∈ ["Agreement", "Contract", "Terms", "Legal", "whereas"]

/-- The per-type score as claim C3 states it: the raw weighted sum clamped
to [0,1] FIRST, and then multiplied by the length factor. -/
def clamp_first_type_score (search : String → String → Bool) (text : String)
    (cr : DocCriteria) : ℚ :=
  pyMin 1 (pyMax 0
      (calculate_keyword_score text.toLower cr.keywords * cr.weight_keyword
        + calculate_pattern_score search text cr.patterns * cr.weight_pattern
        + calculate_structure_score text.toLower cr.structure_terms * cr.weight_structure
        + calculate_indian_legal_bonus search text * 0.1))
    * pyMin 1 (((pyWords text).length : ℚ) / 100)

/-! ## Theorems: helper lemmas and the claims -/

theorem pyMin_eq_min (a b : ℚ) : pyMin a b = min a b := by
  rw [pyMin, min_def]

theorem pyMax_eq_max (a b : ℚ) : pyMax a b = max a b := by
  rw [pyMax, max_def]
  by_cases h1 : b ≤ a <;> by_cases h2 : a ≤ b <;>
    simp [h1, h2] <;> first
    | exact le_antisymm h2 h1
    | linarith

theorem leadsList_iff (l₁ l₂ : List Char) : leadsList l₁ l₂ = true ↔ l₁ <+: l₂ := by
  induction l₁ generalizing l₂ with
  | nil => simp [leadsList]
  | cons c cs ih =>
    cases l₂ with
    | nil => simp [leadsList]
    | cons d ds =>
      simp [leadsList, ih, List.cons_prefix_cons, and_comm]

theorem occursIn_iff (l₁ l₂ : List Char) : occursIn l₁ l₂ = true ↔ l₁ <:+: l₂ := by
  induction l₂ with
  | nil => simp [occursIn, List.isEmpty_iff]
  | cons d ds ih =>
    simp only [occursIn, Bool.or_eq_true, leadsList_iff, ih, List.infix_cons_iff]

/-- Claim C8: risk levels are assigned by scanning a risk type's threshold table
from highest to lowest and returning the first level whose threshold the
score meets or exceeds (shown in closed form for the constitutional_risk
table, whose thresholds — like all tables' — are strictly descending);
in particular a constitutional_compliance score of exactly 90 maps to
"very_low" and a score of 89.9 maps to "low". -/
theorem claim_C8_risk_level_first_match :
    (∀ s : ℚ, get_risk_level ("constitutional_risk") s =
      if 90 ≤ s then "very_low"
      else if 75 ≤ s then "low"
      else if 60 ≤ s then "medium"
      else if 40 ≤ s then "high"
      else "very_high")
    ∧ get_risk_level ("constitutional_risk") 90 = "very_low"
    ∧ get_risk_level ("constitutional_risk") (899/10) = "low"
    ∧ ∀ p ∈ risk_thresholds, p.2.Pairwise (fun x y => y.2 < x.2) := by
  refine ⟨?_, ?_, ?_, ?_⟩
  · intro s
    by_cases h1 : (90:ℚ) ≤ s <;> by_cases h2 : (75:ℚ) ≤ s <;>
      by_cases h3 : (60:ℚ) ≤ s <;> by_cases h4 : (40:ℚ) ≤ s <;>
      by_cases h0 : (0:ℚ) ≤ s <;>
      simp [get_risk_level, risk_thresholds, List.lookup, List.find?, ge_iff_le,
        h1, h2, h3, h4, h0]
  · with_unfolding_all decide
  · with_unfolding_all decide
  · with_unfolding_all decide

/-- Witness for C8: the first-match rule evaluated at score 80 gives "low",
and the constitutional_risk table is strictly descending. -/
theorem claim_C8_witness :
    get_risk_level ("constitutional_risk") 80 = "low"
    ∧ List.Pairwise (fun x y => y.2 < x.2)
        [("very_low", (90:ℚ)), ("low", 75), ("medium", 60), ("high", 40), ("very_high", 0)] := by
  constructor
  · have h := claim_C8_risk_level_first_match.1 80
    norm_num at h
    exact h
  · exact claim_C8_risk_level_first_match.2.2.2
      ("constitutional_risk",
        [("very_low", (90:ℚ)), ("low", 75), ("medium", 60), ("high", 40), ("very_high", 0)])
      (by with_unfolding_all decide)

/-- Claim C10: the risk-type key derived for the dpdpa_compliance category is
"dpdpa_risk", which is absent from the risk-threshold table, so that
category is always bucketed with the overall_risk thresholds; a
dpdpa_compliance score of 87 yields "very_low" although the compliance_risk
table would yield "low" at the same score. -/
theorem claim_C10_dpdpa_risk_falls_back_to_overall :
    risk_key_for ("dpdpa_compliance") = "dpdpa_risk"
    ∧ risk_thresholds.lookup ("dpdpa_risk") = none
    ∧ (∀ s : ℚ, get_risk_level ("dpdpa_risk") s = get_risk_level ("overall_risk") s)
    ∧ get_risk_level ("dpdpa_risk") 87 = "very_low"
    ∧ get_risk_level ("compliance_risk") 87 = "low" := by
  refine ⟨?_, ?_, fun _ => rfl, ?_, ?_⟩
  · with_unfolding_all decide
  · with_unfolding_all decide
  · with_unfolding_all decide
  · with_unfolding_all decide

theorem map_framework_mem (f : String) :
    map_framework_to_category f = "constitutional_compliance" ∨
    map_framework_to_category f = "privacy_compliance" ∨
    map_framework_to_category f = "dpdpa_compliance" := by
  unfold map_framework_to_category
  cases h : framework_category_mapping.lookup f with
  | none => simp
  | some v =>
    have hmem : (f, v) ∈ framework_category_mapping := by
      obtain ⟨l₁, l₂, heq, _⟩ := List.lookup_eq_some_iff.mp h
      rw [heq]
      exact List.mem_append_right _ (List.mem_cons_self _ _)
    simp only [framework_category_mapping, List.mem_cons, List.not_mem_nil,
      or_false, Prod.mk.injEq] at hmem
    rcases hmem with ⟨_, rfl⟩ | ⟨_, rfl⟩ | ⟨_, rfl⟩ | ⟨_, rfl⟩ | ⟨_, rfl⟩ <;> simp

theorem scoring_criteria_lookup_isSome (f : String) :
    (scoring_criteria.lookup (map_framework_to_category f)).isSome := by
  rcases map_framework_mem f with h | h | h <;> rw [h] <;> with_unfolding_all decide

theorem score_framework_category_isSome (f : String) (a : DocumentAnalysis) :
    (score_framework_category f a).isSome := by
  unfold score_framework_category
  cases h : scoring_criteria.lookup (map_framework_to_category f) with
  | none =>
    have hs := scoring_criteria_lookup_isSome f
    rw [h] at hs
    simp at hs
  | some cfg => simp [h]

theorem framework_cat_score_eq (f : String) (a : DocumentAnalysis) :
    framework_cat_score f a = category_score_of (map_framework_to_category f) a := by
  unfold framework_cat_score score_framework_category category_score_of
  cases h : scoring_criteria.lookup (map_framework_to_category f) <;> simp [h]

theorem fold_weights (a : DocumentAnalysis) :
    ∀ (fs : List String) (st : ScoreAcc),
      ((fs.foldl (score_step a) st).total_weighted_score
        = st.total_weighted_score
          + (fs.map (fun f => framework_cat_score f a * framework_weight f)).sum)
      ∧ ((fs.foldl (score_step a) st).total_weight
        = st.total_weight + (fs.map framework_weight).sum) := by
  intro fs
  induction fs with
  | nil => intro st; simp
  | cons f fs ih =>
    intro st
    obtain ⟨cs, hcs⟩ := Option.isSome_iff_exists.mp (score_framework_category_isSome f a)
    have hstep : score_step a st f =
        { total_weighted_score :=
            st.total_weighted_score + framework_cat_score f a * framework_weight f
          total_weight := st.total_weight + framework_weight f
          category_scores := pyDictSet st.category_scores (map_framework_to_category f) cs
          critical_issues := st.critical_issues ++ cs.issues
          recommendations := st.recommendations ++ cs.recommendations } := by
      unfold score_step
      rw [hcs]
      simp [framework_cat_score, hcs, framework_weight]
    rw [List.foldl_cons, hstep]
    obtain ⟨ih1, ih2⟩ := ih _
    constructor
    · rw [ih1]; simp; ring
    · rw [ih2]; simp; ring

/-- Claim C1, amended: the overall score is the weighted mean over the engaged
categories where each category's weight is counted once PER FRAMEWORK that
maps to it (multiplicity `count c`), not once per distinct category. -/
theorem claim_C1_amended (a : DocumentAnalysis) (fs : List String) :
    (calculate_comprehensive_score a fs).overall_score =
      if 0 < ∑ c in (fs.map map_framework_to_category).toFinset,
          ((fs.map map_framework_to_category).count c : ℚ) * get_category_weight c then
        (∑ c in (fs.map map_framework_to_category).toFinset,
            ((fs.map map_framework_to_category).count c : ℚ) *
              (category_score_of c a * get_category_weight c))
          / ∑ c in (fs.map map_framework_to_category).toFinset,
              ((fs.map map_framework_to_category).count c : ℚ) * get_category_weight c
      else 0 := by
  obtain ⟨h1, h2⟩ := fold_weights a fs
    { total_weighted_score := 0
      total_weight := 0
      category_scores := []
      critical_issues := []
      recommendations := [] }
  have e1 : (fs.map (fun f => framework_cat_score f a * framework_weight f)).sum
      = ∑ c in (fs.map map_framework_to_category).toFinset,
          ((fs.map map_framework_to_category).count c : ℚ)
            * (category_score_of c a * get_category_weight c) := by
    have hmap : (fs.map (fun f => framework_cat_score f a * framework_weight f))
        = ((fs.map map_framework_to_category).map
            (fun c => category_score_of c a * get_category_weight c)) := by
      rw [List.map_map]
      exact List.map_congr_left (fun f _ => by
        rw [framework_cat_score_eq]; rfl)
    rw [hmap, Finset.sum_list_map_count]
    exact Finset.sum_congr rfl (fun c _ => by rw [nsmul_eq_mul])
  have e2 : (fs.map framework_weight).sum
      = ∑ c in (fs.map map_framework_to_category).toFinset,
          ((fs.map map_framework_to_category).count c : ℚ) * get_category_weight c := by
    have hmap : (fs.map framework_weight)
        = ((fs.map map_framework_to_category).map get_category_weight) := by
      rw [List.map_map]
      rfl
    rw [hmap, Finset.sum_list_map_count]
    exact Finset.sum_congr rfl (fun c _ => by rw [nsmul_eq_mul])
  simp only [calculate_comprehensive_score]
  simp only [h1, h2, e1, e2, zero_add, gt_iff_lt]

/-- Claim C1, counterexample: with frameworks administrative_law and
general_legal_analysis both mapping onto constitutional_compliance, the
code counts the 0.4 weight twice (overall 679/11 ≈ 61.73) whereas the
claimed distinct-categories mean counts it once (425/7 ≈ 60.71). -/
theorem claim_C1_counterexample :
    (calculate_comprehensive_score emptyAnalysis
        ["administrative_law", "general_legal_analysis", "privacy_rights_analysis"]).overall_score
      ≠ distinct_category_weighted_mean emptyAnalysis
          ["administrative_law", "general_legal_analysis", "privacy_rights_analysis"] := by
  with_unfolding_all decide

/-- Claim C9: a framework name outside the fixed five-entry mapping — any unknown
string — is mapped to constitutional_compliance and scored fully there: the
category lookup succeeds (it is not skipped), the weight contributed is the
constitutional 0.4, and applying the unknown framework alone yields exactly
the constitutional category score as the overall score. -/
theorem claim_C9_unknown_framework_scores_constitutional (f : String)
    (hf : f ∉ ["constitutional_analysis", "privacy_rights_analysis", "dpdpa_compliance",
               "administrative_law", "general_legal_analysis"]) :
    map_framework_to_category f = "constitutional_compliance"
    ∧ get_category_weight (map_framework_to_category f) = 2/5
    ∧ ∀ a : DocumentAnalysis,
        (score_framework_category f a).isSome
        ∧ (calculate_comprehensive_score a [f]).overall_score
            = category_score_of ("constitutional_compliance") a := by
  simp only [List.mem_cons, List.not_mem_nil, or_false, not_or] at hf
  obtain ⟨hf1, hf2, hf3, hf4, hf5⟩ := hf
  have hnone : framework_category_mapping.lookup f = none := by
    rw [List.lookup_eq_none_iff]
    intro p hp
    simp only [framework_category_mapping, List.mem_cons, List.not_mem_nil, or_false] at hp
    rcases hp with rfl | rfl | rfl | rfl | rfl <;>
      simp [bne_iff_ne, hf1, hf2, hf3, hf4, hf5]
  have hmap : map_framework_to_category f = "constitutional_compliance" := by
    simp [map_framework_to_category, hnone]
  have hw : get_category_weight (map_framework_to_category f) = 2/5 := by
    rw [hmap]
    with_unfolding_all decide
  refine ⟨hmap, hw, fun a => ⟨score_framework_category_isSome f a, ?_⟩⟩
  obtain ⟨h1, h2⟩ := fold_weights a [f]
    { total_weighted_score := 0
      total_weight := 0
      category_scores := []
      critical_issues := []
      recommendations := [] }
  have hfw : framework_weight f = 2/5 := hw
  have hfs : framework_cat_score f a = category_score_of ("constitutional_compliance") a := by
    rw [framework_cat_score_eq, hmap]
  simp only [calculate_comprehensive_score]
  simp only [h1, h2, List.map_cons, List.map_nil, List.sum_cons, List.sum_nil,
    zero_add, add_zero, hfw, hfs, gt_iff_lt]
  rw [if_pos (by norm_num)]
  field_simp

/-- Witness for C9: the concrete unknown framework name
"x_unknown_framework" is outside the mapping, lands on
constitutional_compliance, and alone yields the constitutional category
score as the overall score. -/
theorem claim_C9_witness :
    ("x_unknown_framework" ∉ ["constitutional_analysis", "privacy_rights_analysis",
        "dpdpa_compliance", "administrative_law", "general_legal_analysis"])
    ∧ map_framework_to_category ("x_unknown_framework") = "constitutional_compliance"
    ∧ (calculate_comprehensive_score emptyAnalysis ["x_unknown_framework"]).overall_score
        = category_score_of ("constitutional_compliance") emptyAnalysis := by
  have hf : ("x_unknown_framework" : String) ∉ ["constitutional_analysis",
      "privacy_rights_analysis", "dpdpa_compliance", "administrative_law",
      "general_legal_analysis"] := by
    with_unfolding_all decide
  have h := claim_C9_unknown_framework_scores_constitutional ("x_unknown_framework") hf
  exact ⟨hf, h.1, (h.2.2 emptyAnalysis).2⟩

theorem mem_of_lookup_some {β : Type} {l : List (String × β)} {k : String} {b : β}
    (h : l.lookup k = some b) : (k, b) ∈ l := by
  obtain ⟨l₁, l₂, heq, _⟩ := List.lookup_eq_some_iff.mp h
  rw [heq]
  exact List.mem_append_right _ (List.mem_cons_self _ _)

theorem insert_by_key_length {α : Type} (key : α → ℕ) (x : α) (l : List α) :
    (insert_by_key key x l).length = l.length + 1 := by
  induction l with
  | nil => rfl
  | cons y ys ih => by_cases h : key y ≤ key x <;> simp [insert_by_key, h, ih]

theorem mem_insert_by_key {α : Type} (key : α → ℕ) (x a : α) (l : List α) :
    a ∈ insert_by_key key x l ↔ a = x ∨ a ∈ l := by
  induction l with
  | nil => simp [insert_by_key]
  | cons y ys ih =>
    by_cases h : key y ≤ key x <;> (simp [insert_by_key, h, ih]; try tauto)

theorem insert_by_key_sorted {α : Type} (key : α → ℕ) (x : α) (l : List α)
    (hl : l.Pairwise (fun a b => key a ≤ key b)) :
    (insert_by_key key x l).Pairwise (fun a b => key a ≤ key b) := by
  induction l with
  | nil => simp [insert_by_key]
  | cons y ys ih =>
    obtain ⟨hy, hys⟩ := List.pairwise_cons.mp hl
    by_cases h : key y ≤ key x
    · simp only [insert_by_key, if_pos h]
      refine List.pairwise_cons.mpr ⟨?_, ih hys⟩
      intro b hb
      rcases (mem_insert_by_key key x b ys).mp hb with rfl | hb
      · exact h
      · exact hy b hb
    · simp only [insert_by_key, if_neg h]
      refine List.pairwise_cons.mpr ⟨?_, hl⟩
      intro b hb
      rcases List.mem_cons.mp hb with rfl | hb
      · exact le_of_lt (not_le.mp h)
      · exact le_trans (le_of_lt (not_le.mp h)) (hy b hb)

theorem insert_by_key_filter {α : Type} (key : α → ℕ) (p : ℕ) (x : α) (l : List α)
    (hl : l.Pairwise (fun a b => key a ≤ key b)) :
    (insert_by_key key x l).filter (fun a => key a = p)
      = if key x = p then l.filter (fun a => key a = p) ++ [x]
        else l.filter (fun a => key a = p) := by
  induction l with
  | nil => by_cases h : key x = p <;> simp [insert_by_key, List.filter, h]
  | cons y ys ih =>
    obtain ⟨hy, hys⟩ := List.pairwise_cons.mp hl
    by_cases h : key y ≤ key x
    · simp only [insert_by_key, if_pos h]
      by_cases hyp : key y = p <;> by_cases hxp : key x = p <;>
        simp [List.filter_cons, hyp, hxp, ih hys]
    · simp only [insert_by_key, if_neg h]
      by_cases hxp : key x = p
      · have hfil : (y :: ys).filter (fun a => key a = p) = [] := by
          rw [List.filter_eq_nil_iff]
          intro b hb
          rcases List.mem_cons.mp hb with rfl | hb
          · simp only [decide_eq_true_eq]
            rw [← hxp]
            exact Nat.ne_of_gt (not_le.mp h)
          · simp only [decide_eq_true_eq]
            rw [← hxp]
            exact Nat.ne_of_gt (lt_of_lt_of_le (not_le.mp h) (hy b hb))
        simp [List.filter_cons, hxp, hfil]
      · simp [List.filter_cons, hxp]

theorem stable_sort_aux {α : Type} (key : α → ℕ) :
    ∀ (l acc : List α), acc.Pairwise (fun a b => key a ≤ key b) →
      (l.foldl (fun acc x => insert_by_key key x acc) acc).Pairwise
          (fun a b => key a ≤ key b)
      ∧ ∀ p, (l.foldl (fun acc x => insert_by_key key x acc) acc).filter
              (fun a => key a = p)
          = acc.filter (fun a => key a = p) ++ l.filter (fun a => key a = p) := by
  intro l
  induction l with
  | nil => intro acc hacc; simp [hacc]
  | cons x xs ih =>
    intro acc hacc
    obtain ⟨hs, hf⟩ := ih (insert_by_key key x acc) (insert_by_key_sorted key x acc hacc)
    refine ⟨hs, fun p => ?_⟩
    simp only [List.foldl_cons]
    rw [hf p, insert_by_key_filter key p x acc hacc]
    by_cases hxp : key x = p <;> simp [hxp, List.filter_cons]

theorem stable_sort_foldl_length {α : Type} (key : α → ℕ) :
    ∀ (l acc : List α),
      (l.foldl (fun acc x => insert_by_key key x acc) acc).length
        = acc.length + l.length := by
  intro l
  induction l with
  | nil => intro acc; simp
  | cons x xs ih =>
    intro acc
    simp only [List.foldl_cons]
    rw [ih, insert_by_key_length]
    simp only [List.length_cons]
    omega

theorem stable_sort_foldl_mem {α : Type} (key : α → ℕ) :
    ∀ (l acc : List α) (a : α),
      (a ∈ l.foldl (fun acc x => insert_by_key key x acc) acc ↔ a ∈ acc ∨ a ∈ l) := by
  intro l
  induction l with
  | nil => intro acc a; simp
  | cons x xs ih =>
    intro acc a
    simp only [List.foldl_cons]
    rw [ih, mem_insert_by_key]
    simp
    tauto

theorem stable_sort_length {α : Type} (key : α → ℕ) (l : List α) :
    (stable_sort_by_key key l).length = l.length := by
  rw [stable_sort_by_key, stable_sort_foldl_length]
  simp

theorem stable_sort_mem {α : Type} (key : α → ℕ) (l : List α) (a : α) :
    a ∈ stable_sort_by_key key l ↔ a ∈ l := by
  rw [stable_sort_by_key, stable_sort_foldl_mem]
  simp

theorem stable_sort_sorted {α : Type} (key : α → ℕ) (l : List α) :
    (stable_sort_by_key key l).Pairwise (fun a b => key a ≤ key b) :=
  (stable_sort_aux key l [] List.Pairwise.nil).1

theorem stable_sort_filter {α : Type} (key : α → ℕ) (l : List α) (p : ℕ) :
    (stable_sort_by_key key l).filter (fun a => key a = p)
      = l.filter (fun a => key a = p) := by
  rw [stable_sort_by_key, (stable_sort_aux key l [] List.Pairwise.nil).2 p]
  rfl

/-- Claim C6: for every document type, confidence, and content-indicator bundle,
the selected framework list has length in [1, 4], is sorted by ascending
framework priority, and — unless the pre-sort union was empty, in which
case the result is exactly the appended general_legal_analysis — within
each priority class the output keeps the pre-sort (insertion) order:
its per-priority restriction is a prefix of the pre-sort union's. -/
theorem claim_C6_selection_bounds_sorted_stable (document_type : String)
    (confidence : ℚ) (ci : ContentIndicators) :
    (1 ≤ (select_frameworks document_type confidence ci).selected_frameworks.length
      ∧ (select_frameworks document_type confidence ci).selected_frameworks.length ≤ 4)
    ∧ (select_frameworks document_type confidence ci).selected_frameworks.Pairwise
        (fun a b => get_framework_priority a ≤ get_framework_priority b)
    ∧ (if combined_frameworks document_type confidence ci = [] then
        (select_frameworks document_type confidence ci).selected_frameworks
          = ["general_legal_analysis"]
      else ∀ p, (select_frameworks document_type confidence ci).selected_frameworks.filter
            (fun f => get_framework_priority f = p)
          <+: (combined_frameworks document_type confidence ci).filter
            (fun f => get_framework_priority f = p)) := by
  have hsel : (select_frameworks document_type confidence ci).selected_frameworks
      = prioritize_and_limit_frameworks (combined_frameworks document_type confidence ci) :=
    rfl
  by_cases hemp : combined_frameworks document_type confidence ci = []
  · rw [hsel, hemp]
    refine ⟨⟨?_, ?_⟩, ?_, ?_⟩ <;>
      simp [prioritize_and_limit_frameworks, stable_sort_by_key,
        minimum_frameworks, maximum_frameworks, hemp]
  · have hlen : (stable_sort_by_key get_framework_priority
        (combined_frameworks document_type confidence ci)).length
        = (combined_frameworks document_type confidence ci).length :=
      stable_sort_length _ _
    have hpos : 0 < (combined_frameworks document_type confidence ci).length :=
      List.length_pos.mpr hemp
    have hens : prioritize_and_limit_frameworks (combined_frameworks document_type confidence ci)
        = (stable_sort_by_key get_framework_priority
            (combined_frameworks document_type confidence ci)).take 4 := by
      rw [prioritize_and_limit_frameworks]
      rw [if_neg (by rw [hlen]; simp only [minimum_frameworks]; omega)]
      simp only [maximum_frameworks]
    rw [hsel, hens]
    refine ⟨⟨?_, ?_⟩, ?_, ?_⟩
    · rw [List.length_take, hlen]
      omega
    · rw [List.length_take]
      omega
    · exact (stable_sort_sorted get_framework_priority _).sublist (List.take_sublist _ _)
    · rw [if_neg hemp]
      intro p
      refine ⟨(stable_sort_by_key get_framework_priority
          (combined_frameworks document_type confidence ci)).drop 4
            |>.filter (fun f => get_framework_priority f = p), ?_⟩
      rw [← List.filter_append, List.take_append_drop, stable_sort_filter]

theorem one_le_framework_priority (f : String) : 1 ≤ get_framework_priority f := by
  unfold get_framework_priority
  cases h : framework_registry.lookup f with
  | none => simp
  | some c =>
    have hall : ∀ p ∈ framework_registry, 1 ≤ p.2.priority := by decide
    simpa using hall _ (mem_of_lookup_some h)

theorem framework_priority_one_unique (f : String)
    (h : get_framework_priority f = 1) : f = "constitutional_analysis" := by
  unfold get_framework_priority at h
  cases hl : framework_registry.lookup f with
  | none => rw [hl] at h; simp at h
  | some c =>
    rw [hl] at h
    simp at h
    have hall : ∀ p ∈ framework_registry, p.2.priority = 1 → p.1 = "constitutional_analysis" := by
      decide
    exact hall _ (mem_of_lookup_some hl) h

theorem constitutional_priority : get_framework_priority ("constitutional_analysis") = 1 := by
  decide

theorem mem_append_new_left (a : String) :
    ∀ (new acc : List String), a ∈ acc → a ∈ append_new acc new := by
  intro new
  induction new with
  | nil => intro acc h; exact h
  | cons f fs ih =>
    intro acc h
    simp only [append_new, List.foldl_cons]
    by_cases hf : f ∈ acc
    · rw [if_pos hf]
      exact ih acc h
    · rw [if_neg hf]
      exact ih _ (List.mem_append_left _ h)

theorem constitutional_mem_combined (document_type : String) (confidence : ℚ)
    (ci : ContentIndicators) (h : confidence ≥ 0.5) :
    "constitutional_analysis" ∈ combined_frameworks document_type confidence ci := by
  simp only [combined_frameworks, apply_combination_rules]
  apply mem_append_new_left
  by_cases hmem : "constitutional_analysis"
      ∈ append_new (get_primary_frameworks document_type) (get_content_based_frameworks ci)
  · rw [if_neg (by simp [hmem])]
    exact hmem
  · rw [if_pos ⟨h, hmem⟩]
    exact List.mem_append_right _ (List.mem_cons_self _ _)

/-- Claim C7: whenever confidence ≥ 0.5, the selected frameworks contain
constitutional_analysis, for every document type (matched or not) and every
content-indicator bundle — it survives priority sorting and the truncation
to 4 because its priority 1 is the unique minimum, so it sorts first. -/
theorem claim_C7_constitutional_default (document_type : String) (confidence : ℚ)
    (ci : ContentIndicators) (h : confidence ≥ 0.5) :
    "constitutional_analysis" ∈ (select_frameworks document_type confidence ci).selected_frameworks := by
  have hc := constitutional_mem_combined document_type confidence ci h
  have hmemS : "constitutional_analysis"
      ∈ stable_sort_by_key get_framework_priority
          (combined_frameworks document_type confidence ci) :=
    (stable_sort_mem _ _ _).mpr hc
  have hsort := stable_sort_sorted get_framework_priority
    (combined_frameworks document_type confidence ci)
  have hsel : (select_frameworks document_type confidence ci).selected_frameworks
      = prioritize_and_limit_frameworks (combined_frameworks document_type confidence ci) :=
    rfl
  rw [hsel, prioritize_and_limit_frameworks]
  cases hS : stable_sort_by_key get_framework_priority
      (combined_frameworks document_type confidence ci) with
  | nil => rw [hS] at hmemS; simp at hmemS
  | cons hd tl =>
    have hhd : hd = "constitutional_analysis" := by
      rw [hS] at hmemS hsort
      rcases List.mem_cons.mp hmemS with rfl | htl
      · rfl
      · have hle : get_framework_priority hd
            ≤ get_framework_priority ("constitutional_analysis") :=
          (List.pairwise_cons.mp hsort).1 _ htl
        rw [constitutional_priority] at hle
        exact framework_priority_one_unique hd
          (le_antisymm hle (one_le_framework_priority hd))
    rw [if_neg (by simp [minimum_frameworks])]
    rw [List.take_cons (by decide : 0 < maximum_frameworks)]
    rw [hhd]
    exact List.mem_cons_self _ _

/-- Witness for C7: at confidence exactly 0.5 and an unmatched document
type with empty indicators, constitutional_analysis is selected. -/
theorem claim_C7_witness :
    "constitutional_analysis"
      ∈ (select_frameworks ("totally_unmatched_type") (1/2)
          emptyContentIndicators).selected_frameworks :=
  claim_C7_constitutional_default _ _ _ (by norm_num)

theorem classification_scores_ne_nil (search : String → String → Bool) (text : String) :
    (classification_scores_of search text).isEmpty = false :=
  rfl

theorem classify_scores_eq (search : String → String → Bool) (text : String)
    (hguard : (text.isEmpty || decide ((pyStrip text).length < 10)) = false) :
    (classify_with_confidence search text).2.2 = classification_scores_of search text := by
  rw [classify_with_confidence]
  rw [if_neg (by simp [hguard])]
  simp only [classification_scores_ne_nil, Bool.false_eq_true, if_false]
  split_ifs <;> rfl

/-- Claim C5: any input whose stripped length is below 10 characters (including
the empty and whitespace-only strings) short-circuits to exactly
("unknown", 0.0, {}), with no per-type scoring. -/
theorem claim_C5_short_input_guard (search : String → String → Bool) (text : String)
    (h : (pyStrip text).length < 10) :
    classify_with_confidence search text = ("unknown", 0, []) := by
  rw [classify_with_confidence, if_pos (by simp [h])]

/-- Witness for C5: the empty and the whitespace-only string both return
("unknown", 0.0, {}). -/
theorem claim_C5_witness :
    ((pyStrip ("")).length < 10 ∧ (pyStrip ("   ")).length < 10)
    ∧ classify_with_confidence five_word_search ("") = ("unknown", 0, [])
    ∧ classify_with_confidence five_word_search ("   ") = ("unknown", 0, []) :=
  ⟨⟨by with_unfolding_all decide, by with_unfolding_all decide⟩,
    claim_C5_short_input_guard five_word_search ("") (by with_unfolding_all decide),
    claim_C5_short_input_guard five_word_search ("   ") (by with_unfolding_all decide)⟩

/-- Claim C2: when the winning score is below the winner's configured threshold
(0.4 for a type with no specific threshold entry), the classifier returns
"general_legal_document" if the winning score exceeds 0.2 and "unknown"
otherwise, and in both cases the returned confidence is the original
winning score. -/
theorem claim_C2_threshold_fallback (search : String → String → Bool) (text : String)
    (hguard : (text.isEmpty || decide ((pyStrip text).length < 10)) = false)
    (hbelow : (pyMaxBySnd (classification_scores_of search text)).2
        < get_confidence_threshold (pyMaxBySnd (classification_scores_of search text)).1) :
    (classify_with_confidence search text
      = ((if (pyMaxBySnd (classification_scores_of search text)).2 > 0.2
          then "general_legal_document" else "unknown"),
         (pyMaxBySnd (classification_scores_of search text)).2,
         classification_scores_of search text))
    ∧ ∀ ty, confidence_thresholds.lookup ty = none → get_confidence_threshold ty = 2/5 := by
  constructor
  · rw [classify_with_confidence]
    rw [if_neg (by simp [hguard])]
    simp only [classification_scores_ne_nil, Bool.false_eq_true, if_false]
    rw [if_pos hbelow]
    split_ifs <;> rfl
  · intro ty hty
    rw [get_confidence_threshold, hty, Option.getD_none]
    with_unfolding_all decide

/-- Witness for C2: on the concrete five-word text the winner scores 11/300,
below its 0.4 threshold and below 0.2, so the result is relabeled "unknown"
while keeping the winning score as confidence. -/
theorem claim_C2_witness :
    classify_with_confidence five_word_search five_word_text
      = ((if (pyMaxBySnd (classification_scores_of five_word_search five_word_text)).2 > 0.2
          then "general_legal_document" else "unknown"),
         (pyMaxBySnd (classification_scores_of five_word_search five_word_text)).2,
         classification_scores_of five_word_search five_word_text) :=
  (claim_C2_threshold_fallback five_word_search five_word_text
    (by with_unfolding_all decide) (by with_unfolding_all decide)).1

theorem lookup_map_snd {β γ : Type} (g : β → γ) :
    ∀ (l : List (String × β)) (k : String),
      (l.map (fun p => (p.1, g p.2))).lookup k = (l.lookup k).map g := by
  intro l
  induction l with
  | nil => intro k; rfl
  | cons p ps ih =>
    obtain ⟨k0, v0⟩ := p
    intro k
    cases hbeq : (k == k0) <;> simp [List.lookup_cons, hbeq, ih]

/-- Claim C3, amended: the per-type entry of all_scores is the weighted sum
keyword×w_k + pattern×w_p + structure×w_s + bonus×0.1, multiplied by the
length factor min(1, word_count/100) FIRST and only then clamped (from
above) at 1.0 — the clamp comes after the length normalization, not before,
and no lower clamp is applied. -/
theorem claim_C3_amended (search : String → String → Bool) (text : String)
    (ty : String) (cr : DocCriteria)
    (hguard : (text.isEmpty || decide ((pyStrip text).length < 10)) = false)
    (hty : document_patterns.lookup ty = some cr) :
    (classify_with_confidence search text).2.2.lookup ty
      = some (pyMin 1
          ((calculate_keyword_score text.toLower cr.keywords * cr.weight_keyword
            + calculate_pattern_score search text cr.patterns * cr.weight_pattern
            + calculate_structure_score text.toLower cr.structure_terms * cr.weight_structure
            + calculate_indian_legal_bonus search text * 0.1)
           * pyMin 1 (((pyWords text).length : ℚ) / 100))) := by
  rw [classify_scores_eq search text hguard]
  rw [classification_scores_of, lookup_map_snd, hty]
  rfl

/-- Witness for C3 (amended): the general_legal_document entry on the
concrete five-word text equals the post-normalization-clamped formula. -/
theorem claim_C3_witness :
    (classify_with_confidence five_word_search five_word_text).2.2.lookup
        ("general_legal_document")
      = some (pyMin 1
          ((calculate_keyword_score five_word_text.toLower general_legal_criteria.keywords
              * general_legal_criteria.weight_keyword
            + calculate_pattern_score five_word_search five_word_text
                general_legal_criteria.patterns * general_legal_criteria.weight_pattern
            + calculate_structure_score five_word_text.toLower
                general_legal_criteria.structure_terms * general_legal_criteria.weight_structure
            + calculate_indian_legal_bonus five_word_search five_word_text * 0.1)
           * pyMin 1 (((pyWords five_word_text).length : ℚ) / 100))) :=
  claim_C3_amended five_word_search five_word_text ("general_legal_document")
    general_legal_criteria (by with_unfolding_all decide) (by with_unfolding_all decide)

/-- Claim C3, counterexample: on clamp_text the raw weighted sum for
general_legal_document is 1.01 > 1 and the word count is 8, so the code
records min(1, 1.01·0.08) = 101/1250 while the claimed clamp-first formula
gives min(1, 1.01)·0.08 = 100/1250. -/
theorem claim_C3_counterexample :
    (classify_with_confidence clamp_search clamp_text).2.2.lookup ("general_legal_document")
      ≠ some (clamp_first_type_score clamp_search clamp_text general_legal_criteria) := by
  with_unfolding_all decide

theorem type_final_score_eq (search : String → String → Bool) (text : String)
    (cr : DocCriteria) :
    type_final_score search text cr
      = pyMin 1 ((calculate_keyword_score text.toLower cr.keywords * cr.weight_keyword
          + calculate_pattern_score search text cr.patterns * cr.weight_pattern
          + calculate_structure_score text.toLower cr.structure_terms * cr.weight_structure
          + calculate_indian_legal_bonus search text * 0.1)
         * pyMin 1 (((pyWords text).length : ℚ) / 100)) :=
  rfl

theorem ratio_bounds (c n : ℕ) (h : c ≤ n) :
    0 ≤ (c : ℚ) / (n : ℚ) ∧ (c : ℚ) / (n : ℚ) ≤ 1 := by
  rcases Nat.eq_zero_or_pos n with hn | hn
  · subst hn
    interval_cases c
    simp
  · constructor
    · positivity
    · rw [div_le_one (by positivity)]
      exact_mod_cast h

theorem keyword_score_bounds (tl : String) (ks : List String) :
    0 ≤ calculate_keyword_score tl ks ∧ calculate_keyword_score tl ks ≤ 1 := by
  rw [calculate_keyword_score]
  by_cases he : ks.isEmpty <;> simp [he]
  exact ratio_bounds _ _ (List.countP_le_length _)

theorem pattern_score_bounds (search : String → String → Bool) (text : String)
    (ps : List String) :
    0 ≤ calculate_pattern_score search text ps ∧ calculate_pattern_score search text ps ≤ 1 := by
  rw [calculate_pattern_score]
  by_cases he : ps.isEmpty <;> simp [he]
  exact ratio_bounds _ _ (List.countP_le_length _)

theorem structure_score_bounds (tl : String) (ss : List String) :
    0 ≤ calculate_structure_score tl ss ∧ calculate_structure_score tl ss ≤ 1 := by
  rw [calculate_structure_score]
  by_cases he : ss.isEmpty <;> simp [he]
  exact ratio_bounds _ _ (List.countP_le_length _)

theorem bonus_bounds (search : String → String → Bool) (text : String) :
    0 ≤ calculate_indian_legal_bonus search text
      ∧ calculate_indian_legal_bonus search text ≤ 1/2 := by
  rw [calculate_indian_legal_bonus, pyMin_eq_min]
  constructor
  · apply le_min (by norm_num)
    positivity
  · calc min 0.5 ((indian_legal_indicators.countP
        (fun g => g.2.any (fun p => search p text)) : ℚ) * 0.1) ≤ 0.5 := min_le_left _ _
    _ ≤ 1/2 := by norm_num

theorem doc_pattern_weights :
    ∀ p ∈ document_patterns,
      p.2.weight_keyword + p.2.weight_pattern + p.2.weight_structure = 1
      ∧ 0 ≤ p.2.weight_keyword ∧ 0 ≤ p.2.weight_pattern ∧ 0 ≤ p.2.weight_structure := by
  with_unfolding_all decide

theorem confidence_threshold_ge (ty : String) : 2/5 ≤ get_confidence_threshold ty := by
  rw [get_confidence_threshold]
  cases h : confidence_thresholds.lookup ty with
  | none =>
    rw [Option.getD_none]
    with_unfolding_all decide
  | some v =>
    rw [Option.getD_some]
    have hall : ∀ p ∈ confidence_thresholds, 2/5 ≤ p.2 := by with_unfolding_all decide
    exact hall _ (mem_of_lookup_some h)

theorem type_final_score_le (search : String → String → Bool) (text : String)
    (cr : DocCriteria)
    (hw : cr.weight_keyword + cr.weight_pattern + cr.weight_structure = 1
      ∧ 0 ≤ cr.weight_keyword ∧ 0 ≤ cr.weight_pattern ∧ 0 ≤ cr.weight_structure)
    (hwc : (pyWords text).length = 5) :
    type_final_score search text cr ≤ 21/400 := by
  obtain ⟨hsum, hk, hp, hs⟩ := hw
  obtain ⟨hks0, hks1⟩ := keyword_score_bounds text.toLower cr.keywords
  obtain ⟨hps0, hps1⟩ := pattern_score_bounds search text cr.patterns
  obtain ⟨hss0, hss1⟩ := structure_score_bounds text.toLower cr.structure_terms
  obtain ⟨hb0, hb1⟩ := bonus_bounds search text
  rw [type_final_score_eq, hwc]
  have hfac : pyMin 1 (((5:ℕ) : ℚ) / 100) = 1/20 := by
    rw [pyMin_eq_min]
    norm_num
  rw [hfac]
  have h1 : calculate_keyword_score text.toLower cr.keywords * cr.weight_keyword
      ≤ cr.weight_keyword := mul_le_of_le_one_left hk hks1
  have h2 : calculate_pattern_score search text cr.patterns * cr.weight_pattern
      ≤ cr.weight_pattern := mul_le_of_le_one_left hp hps1
  have h3 : calculate_structure_score text.toLower cr.structure_terms * cr.weight_structure
      ≤ cr.weight_structure := mul_le_of_le_one_left hs hss1
  have h4 : calculate_indian_legal_bonus search text * 0.1 ≤ (1/2) * 0.1 :=
    mul_le_mul_of_nonneg_right hb1 (by norm_num)
  have hraw : calculate_keyword_score text.toLower cr.keywords * cr.weight_keyword
      + calculate_pattern_score search text cr.patterns * cr.weight_pattern
      + calculate_structure_score text.toLower cr.structure_terms * cr.weight_structure
      + calculate_indian_legal_bonus search text * 0.1 ≤ 21/20 := by
    have : ((1:ℚ)/2) * 0.1 = 1/20 := by norm_num
    linarith
  calc pyMin 1 ((calculate_keyword_score text.toLower cr.keywords * cr.weight_keyword
      + calculate_pattern_score search text cr.patterns * cr.weight_pattern
      + calculate_structure_score text.toLower cr.structure_terms * cr.weight_structure
      + calculate_indian_legal_bonus search text * 0.1) * (1/20))
      ≤ (calculate_keyword_score text.toLower cr.keywords * cr.weight_keyword
          + calculate_pattern_score search text cr.patterns * cr.weight_pattern
          + calculate_structure_score text.toLower cr.structure_terms * cr.weight_structure
          + calculate_indian_legal_bonus search text * 0.1) * (1/20) := by
        rw [pyMin_eq_min]
        exact min_le_right _ _
    _ ≤ (21/20) * (1/20) := mul_le_mul_of_nonneg_right hraw (by norm_num)
    _ = 21/400 := by norm_num

theorem pyMaxBySnd_foldl_mem :
    ∀ (xs : List (String × ℚ)) (b : String × ℚ),
      xs.foldl (fun b p => if p.2 > b.2 then p else b) b = b
      ∨ xs.foldl (fun b p => if p.2 > b.2 then p else b) b ∈ xs := by
  intro xs
  induction xs with
  | nil => intro b; left; rfl
  | cons y ys ih =>
    intro b
    simp only [List.foldl_cons]
    rcases ih (if y.2 > b.2 then y else b) with heq | hmem
    · rw [heq]
      by_cases hy : y.2 > b.2
      · right
        rw [if_pos hy]
        exact List.mem_cons_self _ _
      · left
        rw [if_neg hy]
    · right
      exact List.mem_cons_of_mem _ hmem

theorem pyMaxBySnd_mem (l : List (String × ℚ)) (h : l ≠ []) : pyMaxBySnd l ∈ l := by
  cases l with
  | nil => exact absurd rfl h
  | cons x xs =>
    rw [pyMaxBySnd]
    rcases pyMaxBySnd_foldl_mem xs x with heq | hmem
    · rw [heq]
      exact List.mem_cons_self _ _
    · exact List.mem_cons_of_mem _ hmem

/-- Claim C4, amended: every 5-word input classifies as "unknown" — either the
character-count guard fires, or every per-type score is at most
21/400 = 0.0525, below 0.2 and below every threshold — but the returned
confidence is the winning score, which need not be 0. -/
theorem claim_C4_amended (search : String → String → Bool) (text : String)
    (h5 : (pyWords text).length = 5) :
    (classify_with_confidence search text).1 = "unknown" := by
  by_cases hguard : (text.isEmpty || decide ((pyStrip text).length < 10)) = true
  · rw [classify_with_confidence, if_pos hguard]
  · have hguard' : (text.isEmpty || decide ((pyStrip text).length < 10)) = false :=
      Bool.eq_false_iff.mpr hguard
    have hne : classification_scores_of search text ≠ [] := by
      rw [classification_scores_of, document_patterns]
      simp
    have hmem := pyMaxBySnd_mem (classification_scores_of search text) hne
    have hbound : (pyMaxBySnd (classification_scores_of search text)).2 ≤ 21/400 := by
      have hmem' : pyMaxBySnd (classification_scores_of search text)
          ∈ document_patterns.map (fun p => (p.1, type_final_score search text p.2)) := hmem
      obtain ⟨p, hp, hep⟩ := List.mem_map.mp hmem'
      have hb := type_final_score_le search text p.2 (doc_pattern_weights p hp) h5
      rw [← hep]
      exact hb
    have hlt : (pyMaxBySnd (classification_scores_of search text)).2
        < get_confidence_threshold (pyMaxBySnd (classification_scores_of search text)).1 :=
      lt_of_le_of_lt hbound
        (lt_of_lt_of_le (by norm_num) (confidence_threshold_ge _))
    have hngt : ¬((pyMaxBySnd (classification_scores_of search text)).2 > 0.2) := by
      apply not_lt.mpr
      exact le_trans hbound (by norm_num)
    rw [classify_with_confidence, if_neg (by simp [hguard'])]
    simp only [classification_scores_ne_nil, Bool.false_eq_true, if_false]
    rw [if_pos hlt, if_neg hngt]

/-- Witness for C4 (amended): the concrete five-word text classifies as
"unknown". -/
theorem claim_C4_witness :
    (pyWords five_word_text).length = 5
    ∧ (classify_with_confidence five_word_search five_word_text).1 = "unknown" :=
  ⟨by with_unfolding_all decide,
    claim_C4_amended five_word_search five_word_text (by with_unfolding_all decide)⟩

/-- Claim C4, counterexample: the concrete five-word text passes the character
guard (34 characters), all its words are general_legal_document keywords,
and the classifier returns confidence 11/300 ≠ 0.0 — the claim's
"confidence 0.0 regardless of keyword content" is false because the guard
is on stripped character length, not word count. -/
theorem claim_C4_counterexample :
    (pyWords five_word_text).length = 5
    ∧ (classify_with_confidence five_word_search five_word_text).2.1 ≠ 0 := by
  with_unfolding_all decide

end LegalKAG

